import Mathlib

/-!
Verification of the baseline-guard engine: a shallow embedding of the
repository's compliance classifier, usage scanner and violation aggregator,
with theorems settling the specification's claims.

The repository keeps several near-identical generations of the same script.
We embed the distinct logic of each generation that the claims refer to:

* variant A: the first `getCompliantFeatureIds` in `index.js` (lines 85-124):
  no target validation, dates read from the top-level
  `baseline_low_date`/`baseline_high_date` fields, `fail-on-newly` override
  applied before the year rule, features keyed by their `id` field;
* variant B: the second `getCompliantFeatureIds` in `index.js`
  (lines 282-331): target validation, only `status.baseline_low_date`
  consulted for year targets, override applied last, keyed by object entries;
* variant E: the second `getCompliantFeatureIds` in `part_001`
  (lines 307-362): target validation, both `status.baseline_low_date` and
  `status.baseline_high_date` consulted, override applied last, keyed by
  object entries, followed by a logging step that references the undefined
  name `comiantIds` whenever the compliant set is non-empty.

The `run` drivers of `index.js` (first and second generation) and of
`part_001` (first generation) are embedded as `runA`, `runB` and `runP1`.
External collaborators (glob, `doiuse`/`postcss`, the filesystem) are
modelled as inputs: each input file carries the outcome of reading it and
the outcome of the structured CSS extraction on its content.
-/

/-- A calendar date as the classifier observes it: the only use the code
makes of a parsed date is `toDate(d).getFullYear()`, so we record the year
that call returns. -/
structure CalDate where
  year : Int
deriving DecidableEq

/-- One feature record of the web-features snapshot.  The distinct variants
read the baseline status from `status.baseline` and the dates either from
the top level (`baseline_low_date` / `baseline_high_date`) or from inside
`status`; we carry all four date fields.  `none` models an absent (or
falsy) field. -/
structure Feature where
  id : Option String
  statusBaseline : Option String
  baseline_low_date : Option CalDate
  baseline_high_date : Option CalDate
  statusLowDate : Option CalDate
  statusHighDate : Option CalDate
deriving DecidableEq

/-- The feature record store: JavaScript object entries, in insertion
order. -/
abbrev Store := List (String × Feature)

/-- Value of a digit list read left to right. -/
def digitsToNat : List Char → Nat → Nat
  | [], acc => acc
  | c :: cs, acc => digitsToNat cs (acc * 10 + (c.toNat - 48))

/-- The digit-prefix part of JavaScript `parseInt`: `none` when no digit
leads the list (`NaN`). -/
def parseDigits (l : List Char) (sign : Int) : Option Int :=
  let ds := l.takeWhile Char.isDigit
  if ds.isEmpty then none else some (sign * Int.ofNat (digitsToNat ds 0))

/-- JavaScript `parseInt(s, 10)`: skip leading whitespace, optional sign,
then the longest digit prefix; `none` models `NaN`. -/
def parseIntJs (s : String) : Option Int :=
  let cs := s.toList.dropWhile fun c => c == ' ' || c == '\t' || c == '\n' || c == '\r'
  match cs with
  | '-' :: rest => parseDigits rest (-1)
  | '+' :: rest => parseDigits rest 1
  | rest => parseDigits rest 1

/-- JavaScript `target.toLowerCase()` for the ASCII targets the code
compares against, mapped over the characters. -/
def toLowerStr (s : String) : String :=
  String.mk (s.toList.map Char.toLower)

/-- The `target-baseline` validation shared by the later generations:
`!['widely','newly'].includes(lowerTarget) && isNaN(parseInt(lowerTarget))`
throws, so the target is valid when it is one of the two keywords or its
integer prefix parses. -/
def validTarget (lowerTarget : String) : Bool :=
  (lowerTarget == "widely" || lowerTarget == "newly") || (parseIntJs lowerTarget).isSome

/-- Per-feature classification of the first `index.js` generation
(`index.js` lines 91-116): keyword branches, then the `fail-on-newly`
override, then the year rule over the top-level date fields.  Mirrors the
sequential mutation of `isCompliant`. -/
def classifyA (target : String) (failOnNewly : Bool) (f : Feature) : Bool :=
  let lowerTarget := toLowerStr target
  let status := f.statusBaseline
  let c1 : Bool :=
    if lowerTarget == "widely" && status == some "high" then true
    else if lowerTarget == "newly" && (status == some "high" || status == some "low") then true
    else false
  let c2 : Bool := if failOnNewly && status == some "low" then false else c1
  match parseIntJs lowerTarget with
  | none => c2
  | some targetYear =>
    let c3 : Bool := if f.baseline_low_date.any (fun d => decide (d.year ≤ targetYear)) then true else c2
    if f.baseline_high_date.any (fun d => decide (d.year ≤ targetYear)) then true else c3

/-- JavaScript truthiness of `feature.id` in `if (isCompliant && feature.id)`:
an absent or empty-string id is falsy. -/
def idTruthy (f : Feature) : Option String :=
  match f.id with
  | some i => if i == "" then none else some i
  | none => none

/-- Compliant ids of the first `index.js` generation: ids of the records
that classify compliant, in store order (`index.js` lines 85-124, without
validation). -/
def compliantIdsA (store : Store) (target : String) (failOnNewly : Bool) : List String :=
  (store.map Prod.snd).filterMap fun f =>
    if classifyA target failOnNewly f then idTruthy f else none

/-- Per-feature classification of the second `index.js` generation
(`index.js` lines 291-317): keyword branches or (in the `else`) the year
rule over `status.baseline_low_date` only, then the `fail-on-newly`
override last. -/
def classifyB (target : String) (failOnNewly : Bool) (f : Feature) : Bool :=
  let lowerTarget := toLowerStr target
  let status := f.statusBaseline.getD ""
  let c1 : Bool :=
    if lowerTarget == "widely" then status == "high"
    else if lowerTarget == "newly" then status == "high" || status == "low"
    else
      match parseIntJs lowerTarget with
      | some targetYear => f.statusLowDate.any fun d => decide (d.year ≤ targetYear)
      | none => false
  if failOnNewly && status == "low" then false else c1

/-- Compliant ids of the second `index.js` generation, keyed by object
entries (`index.js` lines 291-322). -/
def compliantIdsB (store : Store) (target : String) (failOnNewly : Bool) : List String :=
  (store.filter fun p => classifyB target failOnNewly p.2).map Prod.fst

/-- The inverse set built by the second `index.js` run (`index.js` lines
351-352): all ids of the store, minus the compliant ones. -/
def nonCompliantIdsB (store : Store) (target : String) (failOnNewly : Bool) : List String :=
  (store.map Prod.fst).filter fun id => !(compliantIdsB store target failOnNewly).contains id

/-- Per-feature classification of the second `part_001` generation
(`part_001` lines 316-347): keyword branches or (in the `else`) the year
rule over both `status.baseline_low_date` and `status.baseline_high_date`,
then the `fail-on-newly` override last. -/
def classifyE (target : String) (failOnNewly : Bool) (f : Feature) : Bool :=
  let lowerTarget := toLowerStr target
  let status := f.statusBaseline.getD ""
  let c1 : Bool :=
    if lowerTarget == "widely" then status == "high"
    else if lowerTarget == "newly" then status == "high" || status == "low"
    else
      match parseIntJs lowerTarget with
      | some targetYear =>
        let cLow : Bool := f.statusLowDate.any fun d => decide (d.year ≤ targetYear)
        if f.statusHighDate.any (fun d => decide (d.year ≤ targetYear)) then true else cLow
      | none => false
  if failOnNewly && status == "low" then false else c1

/-- Compliant ids of the second `part_001` generation, keyed by object
entries. -/
def compliantIdsE (store : Store) (target : String) (failOnNewly : Bool) : List String :=
  (store.filter fun p => classifyE target failOnNewly p.2).map Prod.fst

/-- Per-feature classification of the first `part_001` generation
(`part_001` lines 90-122): same ordering as variant A (override before the
year rule), status and dates defaulted to the empty string, dates read from
the top-level fields. -/
def classifyD (target : String) (failOnNewly : Bool) (f : Feature) : Bool :=
  let lowerTarget := toLowerStr target
  let status := f.statusBaseline.getD ""
  let c1 : Bool :=
    if lowerTarget == "widely" && status == "high" then true
    else if lowerTarget == "newly" && (status == "high" || status == "low") then true
    else false
  let c2 : Bool := if failOnNewly && status == "low" then false else c1
  match parseIntJs lowerTarget with
  | none => c2
  | some targetYear =>
    let c3 : Bool := if f.baseline_low_date.any (fun d => decide (d.year ≤ targetYear)) then true else c2
    if f.baseline_high_date.any (fun d => decide (d.year ≤ targetYear)) then true else c3

/-- Compliant ids of the first `part_001` generation (ids of records whose
truthy `id` field classifies compliant). -/
def compliantIdsD (store : Store) (target : String) (failOnNewly : Bool) : List String :=
  (store.map Prod.snd).filterMap fun f =>
    if classifyD target failOnNewly f then idTruthy f else none

/-- Error message thrown by the validating classifiers on an unrecognized
target. -/
def invalidTargetMsg (target : String) : String :=
  s!"Invalid target-baseline: {target}. Must be widely, newly, or a year."

/-- Error raised at `part_001` line 358, where the non-empty logging branch
reads the undefined name `comiantIds`. -/
def referenceErrorMsg : String :=
  "ReferenceError: comiantIds is not defined"

/-- The second `part_001` classifier as called, including its validation and
its post-loop logging (`part_001` lines 307-362): when the compliant set is
non-empty, the logging line references the undefined name `comiantIds` and
the function raises a ReferenceError instead of returning. -/
def getCompliantFeatureIdsE (store : Store) (target : String) (failOnNewly : Bool) :
    Except String (List String) :=
  let lowerTarget := toLowerStr target
  if !(validTarget lowerTarget) then Except.error (invalidTargetMsg target)
  else
    let ids := compliantIdsE store target failOnNewly
    if ids.length == 0 then Except.ok ids
    else Except.error referenceErrorMsg

/-- One usage message from the external structured CSS extractor
(`doiuse`): the plugin tag, the feature id, and optional line/column
(`none` models a falsy value, rendered as the literal string "unknown"). -/
structure CssMessage where
  plugin : String
  feature : String
  line : Option Nat
  column : Option Nat
deriving DecidableEq

/-- One globbed input file together with the outcomes of the external
collaborators on it: `readResult` is what `fs.readFileSync` yields (content
or a thrown error), `parseResult` is what the structured CSS extraction of
that content yields (its message stream or a thrown parse error). -/
structure InputFile where
  path : String
  readResult : Except String String
  parseResult : Except String (List CssMessage)

/-- A violation record.  `none` in `line`/`column` models the literal
string "unknown" the code stores for a falsy location. -/
structure Violation where
  file : String
  line : Option Nat
  column : Option Nat
  feature : String
  reason : String
deriving DecidableEq

/-- Outcome of a completed run: the ordered violation list, the
`violations-found` output string, and whether `setFailed` was called. -/
structure RunResult where
  violations : List Violation
  violationsFound : String
  failed : Bool
deriving DecidableEq

/-- `startsList a b`: `a` begins the list `b`. -/
def startsList : List Char → List Char → Bool
  | [], _ => true
  | _ :: _, [] => false
  | a :: as, b :: bs => a == b && startsList as bs

/-- `hasSubAux needle hay`: some tail of `hay` begins with `needle`. -/
def hasSubAux (needle : List Char) : List Char → Bool
  | [] => needle.isEmpty
  | c :: cs => startsList needle (c :: cs) || hasSubAux needle cs

/-- JavaScript `hay.includes(needle)`: literal substring presence. -/
def strIncludes (hay needle : String) : Bool :=
  hasSubAux needle.toList hay.toList

/-- JavaScript `s.endsWith(tail)`. -/
def endsWithStr (s tail : String) : Bool :=
  startsList tail.toList.reverse s.toList.reverse

/-- The CI gate shared by every run generation: with at least one violation
the run warns, sets `violations-found` to "true" and calls `setFailed`;
otherwise it sets "false" and passes. -/
def gateResult (violations : List Violation) : RunResult :=
  if violations.length > 0 then
    { violations := violations, violationsFound := "true", failed := true }
  else
    { violations := violations, violationsFound := "false", failed := false }

/-- The scan loop of every run generation: files in glob order, each file's
violations appended in order; a thrown per-file error not caught inside the
loop body propagates and aborts the whole loop. -/
def scanAll (g : InputFile → Except String (List Violation)) :
    List InputFile → Except String (List Violation)
  | [] => Except.ok []
  | f :: fs =>
    match g f with
    | Except.error e => Except.error e
    | Except.ok vs =>
      match scanAll g fs with
      | Except.error e => Except.error e
      | Except.ok rest => Except.ok (vs ++ rest)

/-- Per-file scanning of the first `index.js` run (`index.js` lines
149-169): only `.css` files are read; the read and the extraction have no
per-file handler, so their errors propagate; a usage becomes a violation
when its feature id is not in the compliant set. -/
def scanFileA (compliant : List String) (target : String) (f : InputFile) :
    Except String (List Violation) :=
  if endsWithStr f.path ".css" then
    match f.readResult with
    | Except.error e => Except.error e
    | Except.ok _ =>
      match f.parseResult with
      | Except.error e => Except.error e
      | Except.ok usages =>
        Except.ok (usages.filterMap fun u =>
          if !(compliant.contains u.feature) then
            some { file := f.path, line := u.line, column := none,
                   feature := u.feature,
                   reason := s!"Not found in Baseline Target: {target}" }
          else none)
  else Except.ok []

/-- The first `index.js` run (`index.js` lines 126-194): no target
validation, CSS-only scanning against the compliant set, then the CI
gate.  A thrown error anywhere yields the outer-catch `setFailed` path,
modelled as `Except.error`. -/
def runA (store : Store) (target : String) (failOnNewly : Bool)
    (files : List InputFile) : Except String RunResult :=
  let compliant := compliantIdsA store target failOnNewly
  match scanAll (scanFileA compliant target) files with
  | Except.error e => Except.error e
  | Except.ok violations => Except.ok (gateResult violations)

/-- Per-file scanning of the second `index.js` run (`index.js` lines
368-403): every file is read first, outside any per-file handler; for
`.css` files the structured extraction is wrapped in a per-file handler
(a parse error logs and skips the file) and a message becomes a violation
when its plugin is `doiuse` and its feature is in the non-compliant set;
for `.js` files each non-compliant id found as a literal substring of the
content becomes a violation; other files are skipped. -/
def scanFileB (nonCompliant : List String) (target : String) (f : InputFile) :
    Except String (List Violation) :=
  match f.readResult with
  | Except.error e => Except.error e
  | Except.ok content =>
    if endsWithStr f.path ".css" then
      match f.parseResult with
      | Except.error _ => Except.ok []
      | Except.ok msgs =>
        Except.ok (msgs.filterMap fun m =>
          if m.plugin == "doiuse" && nonCompliant.contains m.feature then
            some { file := f.path, line := m.line, column := m.column,
                   feature := m.feature,
                   reason := s!"CSS feature is not compliant with the {target} Baseline target." }
          else none)
    else if endsWithStr f.path ".js" then
      Except.ok (nonCompliant.filterMap fun api =>
        if strIncludes content api then
          some { file := f.path, line := none, column := none,
                 feature := api,
                 reason := s!"Potential usage of JS feature not compliant with the {target} Baseline target." }
        else none)
    else Except.ok []

/-- The second `index.js` run (`index.js` lines 333-427): target validation
inside the classifier (a thrown config error reaches the outer catch before
any file work), the inverse non-compliant set, scanning, then the CI
gate. -/
def runB (store : Store) (target : String) (failOnNewly : Bool)
    (files : List InputFile) : Except String RunResult :=
  if !(validTarget (toLowerStr target)) then Except.error (invalidTargetMsg target)
  else
    let nonCompliant := nonCompliantIdsB store target failOnNewly
    match scanAll (scanFileB nonCompliant target) files with
    | Except.error e => Except.error e
    | Except.ok violations => Except.ok (gateResult violations)

/-- The fixed token list of the first `part_001` run's JS heuristic
(`part_001` line 173). -/
def hardcodedApis : List String := ["fetch", "Promise.any"]

/-- Per-file scanning of the first `part_001` run (`part_001` lines
154-185): `.css` files are read and extracted with no per-file handler and
filtered against the compliant set; `.js` files are read and each token of
the fixed list found as a literal substring becomes a violation, without
consulting the compliant set. -/
def scanFileP1 (compliant : List String) (target : String) (f : InputFile) :
    Except String (List Violation) :=
  if endsWithStr f.path ".css" then
    match f.readResult with
    | Except.error e => Except.error e
    | Except.ok _ =>
      match f.parseResult with
      | Except.error e => Except.error e
      | Except.ok usages =>
        Except.ok (usages.filterMap fun u =>
          if !(compliant.contains u.feature) then
            some { file := f.path, line := u.line, column := none,
                   feature := u.feature,
                   reason := s!"Not found in Baseline Target: {target}" }
          else none)
  else if endsWithStr f.path ".js" then
    match f.readResult with
    | Except.error e => Except.error e
    | Except.ok content =>
      Except.ok (hardcodedApis.filterMap fun api =>
        if strIncludes content api then
          some { file := f.path, line := none, column := none,
                 feature := api,
                 reason := s!"Non-compliant JS API for {target}" }
        else none)
  else Except.ok []

/-- The first `part_001` run (`part_001` lines 131-218): validation inside
the classifier, CSS and hardcoded-JS scanning, then the CI gate. -/
def runP1 (store : Store) (target : String) (failOnNewly : Bool)
    (files : List InputFile) : Except String RunResult :=
  if !(validTarget (toLowerStr target)) then Except.error (invalidTargetMsg target)
  else
    let compliant := compliantIdsD store target failOnNewly
    match scanAll (scanFileP1 compliant target) files with
    | Except.error e => Except.error e
    | Except.ok violations => Except.ok (gateResult violations)

/-- A record with absent fields throughout, to be updated per fixture. -/
def blankFeature : Feature :=
  { id := none, statusBaseline := none, baseline_low_date := none,
    baseline_high_date := none, statusLowDate := none, statusHighDate := none }

/-- Fixture: a newly-available record whose low date is 2020, stored both at
the top level and inside `status` (the two places the variants read). -/
def lowF : Feature :=
  { blankFeature with
    id := some "f1"
    statusBaseline := some "low"
    baseline_low_date := some ⟨2020⟩
    statusLowDate := some ⟨2020⟩ }

/-- Fixture: a widely-available record with no dates. -/
def hiF : Feature :=
  { blankFeature with id := some "h1", statusBaseline := some "high" }

/-- Fixture: a record that qualifies for year targets only through its high
date (2020), stored both at the top level and inside `status`; no low
date. -/
def gFeature : Feature :=
  { blankFeature with
    id := some "g1"
    baseline_high_date := some ⟨2020⟩
    statusHighDate := some ⟨2020⟩ }

/-- Fixture: the `fetch` record, widely available. -/
def fetchF : Feature :=
  { blankFeature with id := some "fetch", statusBaseline := some "high" }

/-- Fixture: a store holding only the widely-available `fetch` record. -/
def storeFetch : Store := [("fetch", fetchF)]

/-- Fixture: a store holding only the newly-available `grid` record. -/
def storeGrid : Store := [("grid", { lowF with id := some "grid" })]

/-- Fixture: a structured-extractor message for a feature id. -/
def mkMsg (feature : String) : CssMessage :=
  { plugin := "doiuse", feature := feature, line := some 3, column := some 1 }

/-- Fixture: a readable CSS file whose extraction reports one usage of the
given feature id. -/
def cssFileUsing (feature : String) : InputFile :=
  { path := "styles.css", readResult := Except.ok "p { }",
    parseResult := Except.ok [mkMsg feature] }

/-- Fixture: a readable JS file whose text contains a `fetch` call. -/
def jsFetchFile : InputFile :=
  { path := "app.js", readResult := Except.ok "const r = fetch(url)",
    parseResult := Except.ok [] }

/-- Fixture: a CSS file whose read fails (for example with EACCES). -/
def unreadableFile : InputFile :=
  { path := "secret.css", readResult := Except.error "EACCES: permission denied",
    parseResult := Except.ok [] }

/-- Fixture: a readable CSS file whose structured extraction fails with a
syntax error. -/
def malformedCssFile : InputFile :=
  { path := "broken.css", readResult := Except.ok "p \x7b color:",
    parseResult := Except.error "CssSyntaxError: unclosed block" }

/-- Fixture: the violation the second `index.js` run emits for the `grid`
usage of `cssFileUsing "grid"` against `storeGrid` and target `widely`. -/
def gridViolation : Violation :=
  { file := "styles.css", line := some 3, column := some 1, feature := "grid",
    reason := "CSS feature is not compliant with the widely Baseline target." }

example : parseIntJs "2023" = some 2023 := by decide
example : parseIntJs "foo" = none := by decide
example : validTarget "foo" = false := by decide
example : strIncludes "const r = fetch(x)" "fetch" = true := by decide
example : endsWithStr "a.css" ".css" = true := by decide

/-- The `fail-on-newly` override of the `part_001` second classifier can
only withdraw compliance, never grant it. -/
lemma classifyE_mono (target : String) (f : Feature) :
    classifyE target true f = true → classifyE target false f = true := by
  unfold classifyE
  intro h
  by_cases hl : (f.statusBaseline.getD "" == "low") = true
  · simp [hl] at h
  · simp [hl] at h ⊢
    exact h

/-- The `fail-on-newly` override of the `index.js` second classifier can
only withdraw compliance, never grant it. -/
lemma classifyB_mono (target : String) (f : Feature) :
    classifyB target true f = true → classifyB target false f = true := by
  unfold classifyB
  intro h
  by_cases hl : (f.statusBaseline.getD "" == "low") = true
  · simp [hl] at h
  · simp [hl] at h ⊢
    exact h

/-- Although the `index.js` first classifier applies the override in the
middle of the chain, the year rule afterwards is the same with and without
the flag, so the flag still can only withdraw compliance. -/
lemma classifyA_mono (target : String) (f : Feature) :
    classifyA target true f = true → classifyA target false f = true := by
  unfold classifyA
  cases hp : parseIntJs (toLowerStr target) with
  | none =>
    intro h
    by_cases hl : (f.statusBaseline == some "low") = true
    · simp [hp, hl] at h
    · simp [hp, hl] at h ⊢
      exact h
  | some y =>
    intro h
    by_cases hl : (f.statusBaseline == some "low") = true <;>
      cases hhq : (f.baseline_high_date.any fun d => decide (d.year ≤ y)) <;>
      cases hlq : (f.baseline_low_date.any fun d => decide (d.year ≤ y)) <;>
      simp_all [hp]

/-- Set-level monotonicity for the `index.js` first classifier. -/
lemma memIdsA_mono (store : Store) (target : String) (id : String) :
    id ∈ compliantIdsA store target true → id ∈ compliantIdsA store target false := by
  intro h
  simp only [compliantIdsA, List.mem_filterMap] at h ⊢
  obtain ⟨f, hf, hid⟩ := h
  refine ⟨f, hf, ?_⟩
  by_cases hc : classifyA target true f = true
  · simp only [classifyA_mono target f hc, if_true]
    simpa [hc] using hid
  · simp [hc] at hid

/-- Set-level monotonicity for the `index.js` second classifier. -/
lemma memIdsB_mono (store : Store) (target : String) (id : String) :
    id ∈ compliantIdsB store target true → id ∈ compliantIdsB store target false := by
  intro h
  simp only [compliantIdsB, List.mem_map, List.mem_filter] at h ⊢
  obtain ⟨p, ⟨hp, hc⟩, he⟩ := h
  exact ⟨p, ⟨hp, classifyB_mono target p.2 hc⟩, he⟩

/-- Set-level monotonicity for the `part_001` second classifier. -/
lemma memIdsE_mono (store : Store) (target : String) (id : String) :
    id ∈ compliantIdsE store target true → id ∈ compliantIdsE store target false := by
  intro h
  simp only [compliantIdsE, List.mem_map, List.mem_filter] at h ⊢
  obtain ⟨p, ⟨hp, hc⟩, he⟩ := h
  exact ⟨p, ⟨hp, classifyE_mono target p.2 hc⟩, he⟩

/-- In the `part_001` second classifier the override runs last, so a
low-status record never classifies compliant when the flag is set. -/
lemma classifyE_low (target : String) (f : Feature)
    (h : f.statusBaseline = some "low") : classifyE target true f = false := by
  unfold classifyE
  simp [h]

lemma parseIntJs_widely : parseIntJs "widely" = none := by decide

lemma parseIntJs_newly : parseIntJs "newly" = none := by decide

/-- For the keyword targets the `index.js` first classifier never reaches
its year rule, so its override also forces a low-status record out. -/
lemma classifyA_low_wn (target : String) (f : Feature)
    (h : f.statusBaseline = some "low")
    (hw : toLowerStr target = "widely" ∨ toLowerStr target = "newly") :
    classifyA target true f = false := by
  unfold classifyA
  rcases hw with hw | hw <;> rw [hw] <;>
    simp [h, parseIntJs_widely, parseIntJs_newly]

/-- A store of only low-status records yields an empty compliant set under
the `part_001` second classifier with the flag set. -/
lemma compliantIdsE_nil_of_all_low (store : Store) (target : String)
    (h : ∀ p ∈ store, p.2.statusBaseline = some "low") :
    compliantIdsE store target true = [] := by
  unfold compliantIdsE
  rw [List.filter_eq_nil_iff.mpr, List.map_nil]
  intro p hp
  simp [classifyE_low target p.2 (h p hp)]

/-- A target whose integer prefix parses is neither keyword. -/
lemma neq_widely_of_parse (target : String) (y : Int)
    (hp : parseIntJs (toLowerStr target) = some y) :
    (toLowerStr target == "widely") = false ∧ (toLowerStr target == "newly") = false := by
  constructor
  · cases hq : toLowerStr target == "widely"
    · rfl
    · rw [eq_of_beq hq, parseIntJs_widely] at hp
      cases hp
  · cases hq : toLowerStr target == "newly"
    · rfl
    · rw [eq_of_beq hq, parseIntJs_newly] at hp
      cases hp

/-- Year rule of the `index.js` first classifier, flag unset: compliance is
exactly the disjunction of the two top-level date tests. -/
lemma classifyA_year (target : String) (y : Int) (f : Feature)
    (hp : parseIntJs (toLowerStr target) = some y) :
    classifyA target false f =
      ((f.baseline_low_date.any fun d => decide (d.year ≤ y)) ||
        (f.baseline_high_date.any fun d => decide (d.year ≤ y))) := by
  obtain ⟨hw, hn⟩ := neq_widely_of_parse target y hp
  cases hlq : (f.baseline_low_date.any fun d => decide (d.year ≤ y)) <;>
    cases hhq : (f.baseline_high_date.any fun d => decide (d.year ≤ y)) <;>
      simp [classifyA, hp, hw, hn, hlq, hhq]

/-- Year rule of the `part_001` second classifier, flag unset: compliance
is exactly the disjunction of the two `status` date tests. -/
lemma classifyE_year (target : String) (y : Int) (f : Feature)
    (hp : parseIntJs (toLowerStr target) = some y) :
    classifyE target false f =
      ((f.statusLowDate.any fun d => decide (d.year ≤ y)) ||
        (f.statusHighDate.any fun d => decide (d.year ≤ y))) := by
  obtain ⟨hw, hn⟩ := neq_widely_of_parse target y hp
  cases hlq : (f.statusLowDate.any fun d => decide (d.year ≤ y)) <;>
    cases hhq : (f.statusHighDate.any fun d => decide (d.year ≤ y)) <;>
      simp [classifyE, hp, hw, hn, hlq, hhq]

/-- Every compliant id of the `index.js` second classifier is an id of the
store. -/
lemma mem_compliantIdsB_sub (store : Store) (target : String) (flag : Bool) (id : String) :
    id ∈ compliantIdsB store target flag → id ∈ store.map Prod.fst := by
  intro h
  simp only [compliantIdsB, List.mem_map, List.mem_filter] at h
  obtain ⟨p, ⟨hp, _⟩, he⟩ := h
  exact List.mem_map.mpr ⟨p, hp, he⟩

/-- Membership in the inverse set of the `index.js` second run: an id of
the store that is not compliant. -/
lemma mem_nonCompliantIdsB (store : Store) (target : String) (flag : Bool) (id : String) :
    id ∈ nonCompliantIdsB store target flag ↔
      id ∈ store.map Prod.fst ∧ id ∉ compliantIdsB store target flag := by
  simp [nonCompliantIdsB, List.mem_filter]

/-- A violation of the completed scan loop comes from one of the files. -/
lemma scanAll_ok_mem (g : InputFile → Except String (List Violation)) :
    ∀ (files : List InputFile) (vs : List Violation) (v : Violation),
      scanAll g files = Except.ok vs → v ∈ vs →
      ∃ f ∈ files, ∃ ws, g f = Except.ok ws ∧ v ∈ ws := by
  intro files
  induction files with
  | nil =>
    intro vs v h hv
    simp only [scanAll] at h
    injection h with h
    subst h
    simp at hv
  | cons f fs ih =>
    intro vs v h hv
    simp only [scanAll] at h
    cases hgf : g f with
    | error e => rw [hgf] at h; cases h
    | ok ws =>
      rw [hgf] at h
      cases hrest : scanAll g fs with
      | error e => rw [hrest] at h; cases h
      | ok rest =>
        rw [hrest] at h
        injection h with h
        subst h
        rcases List.mem_append.mp hv with hv' | hv'
        · exact ⟨f, by simp, ws, hgf, hv'⟩
        · obtain ⟨f', hf', ws', hg', hv''⟩ := ih rest v hrest hv'
          exact ⟨f', by simp [hf'], ws', hg', hv''⟩

/-- Every violation the second `index.js` run collects for one file names a
feature of the non-compliant list: the CSS branch filters for membership
and the JS branch iterates the list itself. -/
lemma scanFileB_ok_mem (nc : List String) (target : String) (f : InputFile)
    (vs : List Violation) (v : Violation)
    (h : scanFileB nc target f = Except.ok vs) (hv : v ∈ vs) :
    v.feature ∈ nc := by
  unfold scanFileB at h
  cases hr : f.readResult with
  | error e => rw [hr] at h; cases h
  | ok content =>
    rw [hr] at h
    dsimp only at h
    by_cases hc : endsWithStr f.path ".css" = true
    · rw [if_pos hc] at h
      cases hpp : f.parseResult with
      | error e =>
        rw [hpp] at h
        dsimp only at h
        injection h with h
        subst h
        simp at hv
      | ok msgs =>
        rw [hpp] at h
        dsimp only at h
        injection h with h
        subst h
        obtain ⟨m, hm, hsome⟩ := List.mem_filterMap.mp hv
        by_cases hcond : (m.plugin == "doiuse" && nc.contains m.feature) = true
        · rw [if_pos hcond] at hsome
          injection hsome with hsome
          subst hsome
          simp only [Bool.and_eq_true] at hcond
          simpa using hcond.2
        · rw [if_neg hcond] at hsome
          cases hsome
    · rw [if_neg hc] at h
      by_cases hj : endsWithStr f.path ".js" = true
      · rw [if_pos hj] at h
        injection h with h
        subst h
        obtain ⟨api, hapi, hsome⟩ := List.mem_filterMap.mp hv
        by_cases hinc : strIncludes content api = true
        · rw [if_pos hinc] at hsome
          injection hsome with hsome
          subst hsome
          simpa using hapi
        · rw [if_neg hinc] at hsome
          cases hsome
      · rw [if_neg hj] at h
        injection h with h
        subst h
        simp at hv

/-- The CI gate keeps the violation list it is given. -/
lemma gateResult_violations (vs : List Violation) : (gateResult vs).violations = vs := by
  unfold gateResult
  split <;> rfl

/-- The CI gate fails and reports "true" exactly on a non-empty violation
list. -/
lemma gateResult_props (vs : List Violation) :
    ((gateResult vs).failed = true ↔ (gateResult vs).violations ≠ []) ∧
    ((gateResult vs).violationsFound = "true" ↔ (gateResult vs).violations ≠ []) ∧
    ((gateResult vs).violationsFound = "false" ↔ (gateResult vs).violations = []) := by
  cases vs <;> simp [gateResult]

/-- Inversion of a completed second-generation `index.js` run: the target
was valid, the scan loop completed, and the result is its gate. -/
lemma runB_ok_inv (store : Store) (target : String) (flag : Bool)
    (files : List InputFile) (r : RunResult)
    (h : runB store target flag files = Except.ok r) :
    validTarget (toLowerStr target) = true ∧
    ∃ vs, scanAll (scanFileB (nonCompliantIdsB store target flag) target) files = Except.ok vs ∧
      r = gateResult vs := by
  unfold runB at h
  by_cases hv : validTarget (toLowerStr target) = true
  · refine ⟨hv, ?_⟩
    rw [hv] at h
    dsimp only at h
    cases hs : scanAll (scanFileB (nonCompliantIdsB store target flag) target) files with
    | error e => rw [hs] at h; cases h
    | ok vs =>
      rw [hs] at h
      dsimp only at h
      injection h with h
      exact ⟨vs, rfl, h.symm⟩
  · rw [Bool.not_eq_true] at hv
    rw [hv] at h
    cases h

/-- Inversion of a completed first-generation `index.js` run: the scan loop
completed and the result is its gate (this generation has no validation). -/
lemma runA_ok_inv (store : Store) (target : String) (flag : Bool)
    (files : List InputFile) (r : RunResult)
    (h : runA store target flag files = Except.ok r) :
    ∃ vs, scanAll (scanFileA (compliantIdsA store target flag) target) files = Except.ok vs ∧
      r = gateResult vs := by
  unfold runA at h
  dsimp only at h
  cases hs : scanAll (scanFileA (compliantIdsA store target flag) target) files with
  | error e => rw [hs] at h; cases h
  | ok vs =>
    rw [hs] at h
    dsimp only at h
    injection h with h
    exact ⟨vs, rfl, h.symm⟩

/-- C1, counterexample: the record `lowF` has baseline status `low` and a
2020 low date; with `fail-on-newly` set and the year target `2023`, the
`index.js` classifier cited by the claim still puts it in the compliant
set, because that variant applies the override before the year rule. -/
theorem c1_counterexample :
    lowF.statusBaseline = some "low" ∧ "f1" ∈ compliantIdsA [("f1", lowF)] "2023" true := by
  decide

/-- C1, amended: with `fail-on-newly` set, a low-status record is never
classified compliant by the `part_001` second classifier (whose override
runs after the year rule) for any target; under the `index.js` first
classifier the same holds for the `widely` and `newly` targets (for year
targets there the override precedes the year rule and can be undone); and
a store of only low-status records yields an empty compliant set. -/
theorem c1_low_override : ∀ (target : String) (f : Feature) (store : Store),
    f.statusBaseline = some "low" →
    classifyE target true f = false ∧
    ((toLowerStr target = "widely" ∨ toLowerStr target = "newly") → classifyA target true f = false) ∧
    ((∀ p ∈ store, p.2.statusBaseline = some "low") → compliantIdsE store target true = []) :=
  fun target f store hlow =>
    ⟨classifyE_low target f hlow,
     fun hw => classifyA_low_wn target f hlow hw,
     fun hall => compliantIdsE_nil_of_all_low store target hall⟩

/-- C1, witness: the amended claim applied to the concrete low-status
record `lowF` and the target `widely`. -/
theorem c1_low_override_witness :
    lowF.statusBaseline = some "low" ∧ classifyE "widely" true lowF = false :=
  ⟨by decide, (c1_low_override "widely" lowF [] (by decide)).1⟩

/-- C2, counterexample: under the first `index.js` generation the target
`foo` is not rejected; its classifier returns an empty compliant set, the
file is scanned, and a violation list with one entry is produced. -/
theorem c2_counterexample :
    validTarget (toLowerStr "foo") = false ∧
    (runA [] "foo" false [cssFileUsing "grid"]).toOption.map
      (fun r => r.violations.map fun v => v.feature) = some ["grid"] :=
  ⟨by decide, rfl⟩

/-- C2, amended: under the validating second `index.js` generation, a
target that is neither keyword nor integer-prefixed makes the run abort
with the configuration error, uniformly in the file list, so no file is
processed and no violation list is produced. -/
theorem c2_abort : ∀ (store : Store) (target : String) (flag : Bool) (files : List InputFile),
    validTarget (toLowerStr target) = false →
    runB store target flag files = Except.error (invalidTargetMsg target) := by
  intro store target flag files h
  unfold runB
  rw [h]
  rfl

/-- C2, witness: the amended claim applied to the concrete target `foo`. -/
theorem c2_abort_witness :
    validTarget (toLowerStr "foo") = false ∧
    runB [] "foo" false [] = Except.error (invalidTargetMsg "foo") :=
  ⟨by decide, c2_abort [] "foo" false [] (by decide)⟩

/-- C3, counterexample: `gFeature` has a 2020 high date and no low date, so
the claim calls it compliant for the year target `2023`; the second
`index.js` classifier cited by the claim consults only the low date and
classifies it non-compliant. -/
theorem c3_counterexample :
    gFeature.statusHighDate = some ⟨2020⟩ ∧ (2020 : Int) ≤ 2023 ∧
    gFeature.statusLowDate = none ∧
    classifyB "2023" false gFeature = false ∧
    ¬ "g1" ∈ compliantIdsB [("g1", gFeature)] "2023" false := by
  decide

/-- C3, amended: for a `Year(y)` target (integer prefix parses to `y`) and
with `fail-on-newly` unset, the `index.js` first classifier is compliant
exactly when the top-level low or high date is present with year at most
`y`, and the `part_001` second classifier exactly when the `status` low or
high date is; the `index.js` second classifier lacks the high-date test. -/
theorem c3_year_rule : ∀ (target : String) (y : Int) (f : Feature),
    parseIntJs (toLowerStr target) = some y →
    (classifyA target false f =
      ((f.baseline_low_date.any fun d => decide (d.year ≤ y)) ||
        (f.baseline_high_date.any fun d => decide (d.year ≤ y)))) ∧
    (classifyE target false f =
      ((f.statusLowDate.any fun d => decide (d.year ≤ y)) ||
        (f.statusHighDate.any fun d => decide (d.year ≤ y)))) :=
  fun target y f hp => ⟨classifyA_year target y f hp, classifyE_year target y f hp⟩

/-- C3, witness: the amended year rule applied to the concrete target
`2023` and the record `lowF`. -/
theorem c3_year_rule_witness :
    parseIntJs (toLowerStr "2023") = some 2023 ∧
    classifyA "2023" false lowF =
      ((lowF.baseline_low_date.any fun d => decide (d.year ≤ (2023 : Int))) ||
        (lowF.baseline_high_date.any fun d => decide (d.year ≤ (2023 : Int)))) :=
  ⟨by decide, (c3_year_rule "2023" 2023 lowF (by decide)).1⟩

/-- C4, counterexample: in the `part_001` run the JS heuristic matches its
fixed token list without consulting the sets; with target `newly` the
`fetch` record is compliant, yet a JS file containing `fetch` yields a
violation naming `fetch`. -/
theorem c4_counterexample :
    (runP1 storeFetch "newly" false [jsFetchFile]).toOption.map
      (fun r => r.violations.map fun v => v.feature) = some ["fetch"] ∧
    "fetch" ∈ compliantIdsD storeFetch "newly" false :=
  ⟨rfl, by decide⟩

/-- C4, amended: in the second `index.js` run every collected violation
(CSS and JS branches alike) names a feature of the non-compliant set, so
never one of the compliant set; the `part_001` runs' fixed-list JS
heuristic does not have this property. -/
theorem c4_no_compliant_violation : ∀ (store : Store) (target : String) (flag : Bool)
    (files : List InputFile) (r : RunResult),
    runB store target flag files = Except.ok r →
    ∀ v ∈ r.violations, v.feature ∉ compliantIdsB store target flag := by
  intro store target flag files r h v hv hcomp
  obtain ⟨-, vs, hs, hr⟩ := runB_ok_inv store target flag files r h
  rw [hr, gateResult_violations] at hv
  obtain ⟨f, hf, ws, hgf, hvw⟩ := scanAll_ok_mem _ files vs v hs hv
  have hnc := scanFileB_ok_mem _ target f ws v hgf hvw
  exact ((mem_nonCompliantIdsB store target flag v.feature).mp hnc).2 hcomp

/-- C4, witness: the amended claim applied to a concrete run that emits the
`grid` violation. -/
theorem c4_no_compliant_violation_witness :
    gridViolation ∈ (gateResult [gridViolation]).violations ∧
    gridViolation.feature ∉ compliantIdsB storeGrid "widely" false :=
  ⟨by decide,
   c4_no_compliant_violation storeGrid "widely" false [cssFileUsing "grid"]
     (gateResult [gridViolation]) rfl gridViolation (by decide)⟩

/-- C5: for every store, target and flag, the compliant set of the second
`index.js` generation and the inverse set its run builds are disjoint and
together are exactly the identifiers of the store. -/
theorem c5_partition : ∀ (store : Store) (target : String) (flag : Bool),
    (compliantIdsB store target flag).toFinset ∩ (nonCompliantIdsB store target flag).toFinset = ∅ ∧
    (compliantIdsB store target flag).toFinset ∪ (nonCompliantIdsB store target flag).toFinset
      = (store.map Prod.fst).toFinset := by
  intro store target flag
  constructor
  · ext id
    simp only [Finset.mem_inter, List.mem_toFinset, Finset.not_mem_empty, iff_false]
    rintro ⟨hc, hn⟩
    exact ((mem_nonCompliantIdsB store target flag id).mp hn).2 hc
  · ext id
    simp only [Finset.mem_union, List.mem_toFinset, mem_nonCompliantIdsB]
    constructor
    · rintro (hc | ⟨ha, _⟩)
      · exact mem_compliantIdsB_sub store target flag id hc
      · exact ha
    · intro ha
      by_cases hc : id ∈ compliantIdsB store target flag
      · exact Or.inl hc
      · exact Or.inr ⟨ha, hc⟩

/-- C6, counterexample: the first `index.js` run tests non-membership in
the compliant set, so a usage candidate whose feature id is absent from the
store entirely still yields a violation. -/
theorem c6_counterexample :
    ¬ "mystery" ∈ storeFetch.map Prod.fst ∧
    (runA storeFetch "widely" false [cssFileUsing "mystery"]).toOption.map
      (fun r => r.violations.map fun v => v.feature) = some ["mystery"] :=
  ⟨by decide, rfl⟩

/-- C6, amended: in the second `index.js` run a candidate becomes a
violation exactly when its feature id is in the non-compliant set: every
emitted violation names a non-compliant id of the store, every `doiuse`
message with a non-compliant feature is emitted, and an id absent from the
store yields no violation. -/
theorem c6_membership_rule : ∀ (store : Store) (target : String) (flag : Bool)
    (f : InputFile) (vs : List Violation),
    scanFileB (nonCompliantIdsB store target flag) target f = Except.ok vs →
    (∀ v ∈ vs, v.feature ∈ nonCompliantIdsB store target flag ∧ v.feature ∈ store.map Prod.fst) ∧
    (∀ content msgs, f.readResult = Except.ok content → f.parseResult = Except.ok msgs →
      endsWithStr f.path ".css" = true →
      ∀ m ∈ msgs, m.plugin = "doiuse" → m.feature ∈ nonCompliantIdsB store target flag →
        ∃ v ∈ vs, v.feature = m.feature) ∧
    (∀ id, id ∉ store.map Prod.fst → ∀ v ∈ vs, v.feature ≠ id) := by
  intro store target flag f vs h
  have hmem : ∀ v ∈ vs, v.feature ∈ nonCompliantIdsB store target flag :=
    fun v hv => scanFileB_ok_mem _ target f vs v h hv
  refine ⟨fun v hv => ⟨hmem v hv,
      ((mem_nonCompliantIdsB store target flag v.feature).mp (hmem v hv)).1⟩, ?_, ?_⟩
  · intro content msgs hr hpp hcss m hm hplug hnc
    unfold scanFileB at h
    rw [hr] at h
    dsimp only at h
    rw [if_pos hcss, hpp] at h
    dsimp only at h
    injection h with h
    subst h
    refine ⟨{ file := f.path, line := m.line, column := m.column, feature := m.feature,
              reason := s!"CSS feature is not compliant with the {target} Baseline target." },
            List.mem_filterMap.mpr ⟨m, hm, ?_⟩, rfl⟩
    have hcond : (m.plugin == "doiuse" &&
        (nonCompliantIdsB store target flag).contains m.feature) = true := by
      simp [hplug, hnc]
    rw [if_pos hcond]
  · intro id hid v hv heq
    exact hid (heq ▸ ((mem_nonCompliantIdsB store target flag v.feature).mp (hmem v hv)).1)

/-- C6, witness: the amended claim applied to the concrete `grid` scan. -/
theorem c6_membership_rule_witness :
    gridViolation.feature ∈ nonCompliantIdsB storeGrid "widely" false ∧
    gridViolation.feature ∈ storeGrid.map Prod.fst :=
  (c6_membership_rule storeGrid "widely" false (cssFileUsing "grid") [gridViolation] rfl).1
    gridViolation (by decide)

/-- C7: for every completed run of either `index.js` generation, the run
fails exactly when the violation list is non-empty, `violations-found` is
the string "true" exactly then, and "false" exactly on an empty list. -/
theorem c7_gate : ∀ (store : Store) (target : String) (flag : Bool)
    (files : List InputFile) (r : RunResult),
    (runB store target flag files = Except.ok r ∨ runA store target flag files = Except.ok r) →
    ((r.failed = true ↔ r.violations ≠ []) ∧
      (r.violationsFound = "true" ↔ r.violations ≠ []) ∧
      (r.violationsFound = "false" ↔ r.violations = [])) := by
  intro store target flag files r h
  rcases h with h | h
  · obtain ⟨-, vs, -, hr⟩ := runB_ok_inv store target flag files r h
    subst hr
    exact gateResult_props vs
  · obtain ⟨vs, -, hr⟩ := runA_ok_inv store target flag files r h
    subst hr
    exact gateResult_props vs

/-- C7, witness: the gate property applied to a concrete empty run. -/
theorem c7_gate_witness :
    runB [] "widely" false [] = Except.ok (gateResult []) ∧
    (((gateResult []).failed = true ↔ (gateResult []).violations ≠ []) ∧
      ((gateResult []).violationsFound = "true" ↔ (gateResult []).violations ≠ []) ∧
      ((gateResult []).violationsFound = "false" ↔ (gateResult []).violations = [])) :=
  ⟨rfl, c7_gate [] "widely" false [] (gateResult []) (Or.inl rfl)⟩

/-- C8, counterexample: an unreadable file is read outside the per-file
handler of the second `index.js` run, so the whole run aborts with the read
error instead of skipping only that file; the readable file after it is
never scanned. -/
theorem c8_counterexample :
    runB storeGrid "widely" false [unreadableFile, cssFileUsing "grid"]
      = Except.error "EACCES: permission denied" :=
  rfl

/-- C8, amended: a readable CSS file whose structured extraction fails is
skipped with zero candidates, and the run over the remaining files is
unchanged; only a read failure aborts the run. -/
theorem c8_skip_rule : ∀ (store : Store) (target : String) (flag : Bool)
    (f : InputFile) (content err : String) (files : List InputFile),
    endsWithStr f.path ".css" = true →
    f.readResult = Except.ok content →
    f.parseResult = Except.error err →
    scanFileB (nonCompliantIdsB store target flag) target f = Except.ok [] ∧
    runB store target flag (f :: files) = runB store target flag files := by
  intro store target flag f content err files hcss hr hpp
  have h1 : scanFileB (nonCompliantIdsB store target flag) target f = Except.ok [] := by
    unfold scanFileB
    rw [hr]
    dsimp only
    rw [if_pos hcss, hpp]
  refine ⟨h1, ?_⟩
  unfold runB
  by_cases hv : validTarget (toLowerStr target) = true
  · rw [hv]
    dsimp only
    have h2 : scanAll (scanFileB (nonCompliantIdsB store target flag) target) (f :: files)
        = scanAll (scanFileB (nonCompliantIdsB store target flag) target) files := by
      simp only [scanAll]
      rw [h1]
      cases hs : scanAll (scanFileB (nonCompliantIdsB store target flag) target) files <;> simp
    rw [h2]
  · rw [Bool.not_eq_true] at hv
    rw [hv]
    rfl

/-- C8, witness: the amended claim applied to the concrete malformed CSS
file. -/
theorem c8_skip_rule_witness :
    endsWithStr malformedCssFile.path ".css" = true ∧
    runB [] "widely" false [malformedCssFile] = runB [] "widely" false [] :=
  ⟨by decide,
   (c8_skip_rule [] "widely" false malformedCssFile "p \x7b color:"
     "CssSyntaxError: unclosed block" [] (by decide) rfl rfl).2⟩

/-- C9: for a fixed store and target, enabling `fail-on-newly` never adds
an id to the compliant set, under each of the three classifier
generations. -/
theorem c9_monotone : ∀ (store : Store) (target : String) (id : String),
    (id ∈ compliantIdsA store target true → id ∈ compliantIdsA store target false) ∧
    (id ∈ compliantIdsB store target true → id ∈ compliantIdsB store target false) ∧
    (id ∈ compliantIdsE store target true → id ∈ compliantIdsE store target false) :=
  fun store target id =>
    ⟨memIdsA_mono store target id, memIdsB_mono store target id, memIdsE_mono store target id⟩

/-- C9, witness: the monotonicity applied to the widely-available record
`hiF`, which is compliant with and without the flag. -/
theorem c9_monotone_witness :
    ("h1" ∈ compliantIdsA [("h1", hiF)] "widely" true) ∧
    ("h1" ∈ compliantIdsA [("h1", hiF)] "widely" false) :=
  ⟨by decide, (c9_monotone [("h1", hiF)] "widely" "h1").1 (by decide)⟩

/-- C10: on a snapshot with one compliant feature and a valid target, the
`part_001` second classifier reaches its non-empty logging branch, which
references the undefined name `comiantIds` and raises a ReferenceError
instead of returning the (non-empty) compliant set. -/
theorem c10_logging_bug :
    getCompliantFeatureIdsE [("h1", hiF)] "newly" false = Except.error referenceErrorMsg ∧
    compliantIdsE [("h1", hiF)] "newly" false = ["h1"] :=
  ⟨rfl, rfl⟩
